import Mathlib

/-!
# Verification of the `pyside6_framework` signal bus and controller

Shallow embedding of `src/qt_enhance/signal_manager.py` (class `SignalManager`),
`src/utils/singleton.py` (`SingletonMeta` / `SingletonBase`), and the data-request
path of `src/modules/main_page/controller/main_controller.py` together with
`src/core/services/example_service.py`.

Modelling conventions:

* Python's `None` is `PyVal.none`; a Python exception is a `PyExn`; an
  operation that can both mutate its object and raise is a function into
  `State × Except PyExn α` — the state component is the object *after* the
  call, whether it returned or raised (Python mutations persist across an
  exception).
* **The logger.**  All of the embedded methods log through `self.logger`,
  an instance of `LogManager` from `src/core/log_manager/log_manager.py`.
  That class defines only `__init__`, `_setup_main_logger`,
  `get_test_logger` and `get_main_logger` — it has no leveled `info` /
  `debug` / `warning` / `error` methods, no relevant base class and no
  `__getattr__`.  Every call such as `self.logger.debug(f"...")` therefore
  raises `AttributeError` at the attribute lookup, *before* any call
  argument (for example an f-string reading `slot.__name__`) is evaluated.
  `loggerCall` below models exactly one such call.
* **Instance states.**  `BusState` is the attribute state of a
  `SignalManager` instance as a completed `__init__` would leave it (custom
  dict, fourteen predefined signal attributes, `initialized` set).  The
  per-operation theorems are stated compositionally over this state space.
  Construction itself, modelled by `managerInitBody` / `managerCall`,
  in fact raises at the `logger.info` call on line 19 before `initialized`
  or any predefined signal attribute is set, so no fully-initialized
  instance is ever actually produced or cached — that is established
  separately (see `manager_construction_never_caches`).
* **The attribute namespace.**  `hasattr(self, name)` (used by
  `get_signal`) sees every attribute of the instance: its fields, its
  methods, everything inherited from `QObject`, and all dunders.  The
  state therefore carries the non-signal part of this namespace as the
  field `plainAttrs`, and theorems are parametric in it;
  `knownPlainAttrs` lists the statically known members (the fields set by
  `__init__` and the class's own methods) for the concrete runs.
* The Qt `Signal` collaborator (PySide6, an external library, not part of
  this repository) is modelled from the spec: a signal object owns an
  ordered list of connected observers; `connect` appends; `disconnect(slot)`
  detaches all connections of that slot and fails when the slot is not
  connected; `disconnect()` detaches all observers and fails when there are
  none; `emit` invokes every currently connected observer in connection
  order with the given argument and fails (raising to the emitter, after
  all observers ran) exactly when some observer raised (spec sections
  4.1, 7, 8).
* Observers (Python callables) are identified by numbers; an environment
  `Env` tells, for each observer, on which call arguments it raises.  The
  call argument is `Option PyVal`: `Option.none` is a zero-argument
  invocation, `some v` an invocation with the single payload `v`.  Signal
  objects are identified by allocation numbers so that Python object
  identity (`is`) is equality of identifiers.
-/

namespace PySide6Framework

/-- A Python value, as far as the bus and controller care about it. -/
inductive PyVal where
  | none
  | str (s : String)
  | int (n : Int)
  | obj (n : Nat)
deriving DecidableEq, Repr

/-- A Python exception (the class only; messages are irrelevant here). -/
inductive PyExn where
  | attributeError
  | runtimeError
  | typeError
  | userError (n : Nat)
deriving DecidableEq, Repr

/-- One leveled logging call on the bus's logger, e.g.
`self.logger.debug(...)`.  `LogManager` (src/core/log_manager/log_manager.py)
defines no leveled methods, so the attribute lookup raises `AttributeError`
before any argument of the call is evaluated. -/
def loggerCall : Except PyExn Unit := .error .attributeError

/-- Observer behaviour: `env o arg = true` iff the callable `o` raises when
invoked with `arg` (`Option.none` = zero-argument invocation). -/
abbrev Env := Nat → Option PyVal → Bool

/-- Record of observer invocations made during one emission:
`(observer, argument)` in invocation order. -/
abbrev Trace := List (Nat × Option PyVal)

/-- Association-list lookup (Python `dict` indexing / `in`). -/
def alookup {β : Type} (m : List (String × β)) (k : String) : Option β :=
  match m with
  | [] => Option.none
  | (a, b) :: t => if a = k then some b else alookup t k

/-- Association-list lookup with `Nat` keys (the signal-object store). -/
def nlookup {β : Type} (m : List (Nat × β)) (k : Nat) : Option β :=
  match m with
  | [] => Option.none
  | (a, b) :: t => if a = k then some b else nlookup t k

/-- Overwrite the value stored under key `k` (no effect when `k` is absent). -/
def nset {β : Type} (m : List (Nat × β)) (k : Nat) (v : β) : List (Nat × β) :=
  match m with
  | [] => []
  | (a, b) :: t => if a = k then (k, v) :: nset t k v else (a, b) :: nset t k v

/-- Remove the entry stored under key `k` (Python `del d[k]`). -/
def aremove {β : Type} (m : List (String × β)) (k : String) : List (String × β) :=
  m.filter (fun p => decide (p.1 ≠ k))

/-- The names of the fourteen predefined signals `__init__` is written to
create (lines 24–45), listed alphabetically, which is the order `dir(self)`
enumerates them in `list_signals`. -/
def predefinedNames : List String :=
  ["app_initialized", "app_shutdown", "app_status_changed",
   "data_deleted", "data_loaded", "data_updated",
   "error_occurred", "ui_font_size_changed", "ui_language_changed",
   "ui_theme_changed", "user_logged_in", "user_logged_out",
   "user_permission_changed", "warning_occurred"]

/-- Predefined-name table: each predefined signal attribute holds the signal
object allocated for it at construction (identifiers `0`–`13`). -/
def preTable : List (String × Nat) :=
  predefinedNames.enum.map (fun p => (p.2, p.1))

/-- The signal object held by a predefined signal attribute, if `name` is a
predefined name. -/
def preId (name : String) : Option Nat :=
  alookup preTable name

/-- The signal-object identifiers of the predefined signals. -/
def predefinedIds : List Nat := List.range 14

/-- The statically known non-signal attributes of a `SignalManager`
instance: the fields set in `__init__` and the class's own methods.  The
real `hasattr` namespace also contains every member inherited from
`QObject` and all dunders; a state's `plainAttrs` field carries whatever
the namespace is, and this list instantiates it for concrete runs. -/
def knownPlainAttrs : List String :=
  ["_custom_signals", "initialized", "logger",
   "register_signal", "get_signal", "emit_signal", "connect_signal",
   "disconnect_signal", "list_signals", "is_signal_registered",
   "unregister_signal", "shutdown"]

/-- Attribute state of a `SignalManager` instance as a completed `__init__`
would leave it (see the module comment: construction in fact raises before
reaching this state).

* `initialized` — whether the `initialized` attribute is set (line 20);
* `custom` — the `_custom_signals` dict: name → signal-object identifier,
  in insertion order;
* `heap` — the signal-object store: identifier → connected observers in
  connection order;
* `nextId` — the next fresh signal-object identifier;
* `plainAttrs` — the non-signal attribute namespace of the instance
  (fields, methods, inherited `QObject` members, dunders). -/
structure BusState where
  initialized : Bool
  custom : List (String × Nat)
  heap : List (Nat × List Nat)
  nextId : Nat
  plainAttrs : List String
deriving DecidableEq, Repr

/-- The bus state the body of `__init__` is *written* to produce: empty
custom dict, fourteen predefined signal objects with no connections.  The
real body raises at line 19 and never completes (see
`managerInitBody`); this state is used as the representative instance
state for the per-operation theorems. -/
def initState : BusState :=
  { initialized := true
    custom := []
    heap := predefinedIds.map (fun i => (i, []))
    nextId := 14
    plainAttrs := knownPlainAttrs }

/-- Observers currently connected to signal object `i`. -/
def heapGet (h : List (Nat × List Nat)) (i : Nat) : List Nat :=
  (nlookup h i).getD []

/-- What `getattr`-style resolution can produce in `get_signal`: a `Signal`
object, or some other (non-signal) attribute such as `self.logger`. -/
inductive AttrVal where
  | signal (i : Nat)
  | plain
deriving DecidableEq, Repr

/-- `SignalManager.get_signal` (lines 66–83): the custom dict is consulted
first (lines 75–76, no logging on that path), then `hasattr(self, name)` —
which matches the predefined signal attributes *and* every other attribute
of the instance (lines 79–80, no logging).  On a miss, line 82 calls
`self.logger.warning`, which raises `AttributeError`, so the `return None`
on line 83 is never reached: a miss raises instead of returning absent. -/
def get_signal (st : BusState) (name : String) : Except PyExn (Option AttrVal) :=
  match alookup st.custom name with
  | some i => .ok (some (AttrVal.signal i))
  | none =>
      match preId name with
      | some i => .ok (some (AttrVal.signal i))
      | none =>
          if name ∈ st.plainAttrs then .ok (some AttrVal.plain)
          else
            match loggerCall with
            | .error e => .error e
            | .ok _ => .ok Option.none

/-- `SignalManager.register_signal` (lines 47–64).  Existing custom entry:
line 57 `logger.warning` raises before the `return` on line 58, leaving the
registry unchanged.  New name (no predefined-name check is performed): the
fresh `Signal(object)` is stored at line 62, then line 63 `logger.debug`
raises before the `return` on line 64 — the signal is stored but never
returned. -/
def register_signal (st : BusState) (name : String) :
    BusState × Except PyExn Nat :=
  match alookup st.custom name with
  | some i =>
      match loggerCall with
      | .error e => (st, .error e)
      | .ok _ => (st, .ok i)
  | none =>
      let i := st.nextId
      let st' := { st with custom := st.custom ++ [(name, i)],
                           heap := st.heap ++ [(i, [])],
                           nextId := i + 1 }
      match loggerCall with
      | .error e => (st', .error e)
      | .ok _ => (st', .ok i)

/-- `SignalManager.emit_signal` (lines 85–107).  The `get_signal` call on
line 95 sits outside the `try`, so its miss-path raise propagates.  On a
resolved signal the emission runs inside the `try` (invoking every
connected observer in order, in the one- or zero-argument form selected by
`data is not None`); whether the emission failed (some observer raised,
caught at line 104) or succeeded (then line 102 `logger.debug` raises, also
caught at line 104), the handler's own `logger.error` on line 105 raises
`AttributeError` out of the method — the `return True` / `return False` on
lines 103/106 are unreachable.  On a non-signal attribute, `.emit` raises
`AttributeError` (caught), then line 105 raises likewise. -/
def emit_signal (env : Env) (st : BusState) (name : String)
    (data : PyVal := PyVal.none) : Trace × Except PyExn Bool :=
  match get_signal st name with
  | .error e => ([], .error e)
  | .ok Option.none => ([], .ok false)
  | .ok (some AttrVal.plain) =>
      match loggerCall with
      | .error e => ([], .error e)
      | .ok _ => ([], .ok false)
  | .ok (some (AttrVal.signal i)) =>
      let arg : Option PyVal :=
        if data = PyVal.none then Option.none else some data
      let obs := heapGet st.heap i
      let tr : Trace := obs.map (fun o => (o, arg))
      if obs.any (fun o => env o arg) then
        match loggerCall with
        | .error e => (tr, .error e)
        | .ok _ => (tr, .ok false)
      else
        match loggerCall with
        | .ok _ => (tr, .ok true)
        | .error _ =>
            match loggerCall with
            | .error e => (tr, .error e)
            | .ok _ => (tr, .ok false)

/-- `SignalManager.connect_signal` (lines 109–128).  The `get_signal` call
(line 119) is outside the `try`.  On a resolved signal, line 122 attaches
the observer; then line 123 evaluates `self.logger.debug` — the attribute
lookup raises *before* the f-string (and hence `slot.__name__`) is
evaluated — the exception is caught at line 125, and the handler's
`logger.error` on line 126 raises out.  The attachment persists.  On a
non-signal attribute, `.connect` raises (caught), then line 126 raises. -/
def connect_signal (st : BusState) (name : String) (slot : Nat) :
    BusState × Except PyExn Bool :=
  match get_signal st name with
  | .error e => (st, .error e)
  | .ok Option.none => (st, .ok false)
  | .ok (some AttrVal.plain) =>
      match loggerCall with
      | .error e => (st, .error e)
      | .ok _ => (st, .ok false)
  | .ok (some (AttrVal.signal i)) =>
      let st' := { st with heap := nset st.heap i (heapGet st.heap i ++ [slot]) }
      match loggerCall with
      | .ok _ => (st', .ok true)
      | .error _ =>
          match loggerCall with
          | .error e => (st', .error e)
          | .ok _ => (st', .ok false)

/-- `SignalManager.disconnect_signal` (lines 130–153).  Same shape as
`connect_signal`: detachment (when it applies) happens first, then the
`logger.debug` on line 145/148 raises (caught), and the handler's
`logger.error` on line 151 raises out; a failed detachment (slot not
connected, or nothing to disconnect) is caught and likewise ends in the
line-151 raise. -/
def disconnect_signal (st : BusState) (name : String)
    (slot : Option Nat := Option.none) : BusState × Except PyExn Bool :=
  match get_signal st name with
  | .error e => (st, .error e)
  | .ok Option.none => (st, .ok false)
  | .ok (some AttrVal.plain) =>
      match loggerCall with
      | .error e => (st, .error e)
      | .ok _ => (st, .ok false)
  | .ok (some (AttrVal.signal i)) =>
      match slot with
      | some s =>
          let obs := heapGet st.heap i
          if s ∈ obs then
            let st' := { st with
              heap := nset st.heap i (obs.filter (fun o => decide (o ≠ s))) }
            match loggerCall with
            | .ok _ => (st', .ok true)
            | .error _ =>
                match loggerCall with
                | .error e => (st', .error e)
                | .ok _ => (st', .ok false)
          else
            match loggerCall with
            | .error e => (st, .error e)
            | .ok _ => (st, .ok false)
      | none =>
          let obs := heapGet st.heap i
          if obs = [] then
            match loggerCall with
            | .error e => (st, .error e)
            | .ok _ => (st, .ok false)
          else
            let st' := { st with heap := nset st.heap i [] }
            match loggerCall with
            | .ok _ => (st', .ok true)
            | .error _ =>
                match loggerCall with
                | .error e => (st', .error e)
                | .ok _ => (st', .ok false)

/-- Result shape of `list_signals` (lines 155–173). -/
structure SignalListing where
  predefined_signals : List String
  custom_signals : List String
deriving DecidableEq, Repr

/-- `SignalManager.list_signals` (lines 155–173): `dir(self)` yields the
fourteen predefined signal attributes (alphabetically), the custom dict
yields its keys in insertion order.  This method performs no logging, so
it actually returns. -/
def list_signals (st : BusState) : SignalListing :=
  { predefined_signals := predefinedNames
    custom_signals := st.custom.map Prod.fst }

/-- `SignalManager.is_signal_registered` (lines 175–192): a custom entry, or
an attribute that is a `Signal` instance — i.e. a predefined name (the
`isinstance` check rejects non-signal attributes).  No logging, so it
actually returns. -/
def is_signal_registered (st : BusState) (name : String) : Bool :=
  (alookup st.custom name).isSome || (preId name).isSome

/-- `SignalManager.unregister_signal` (lines 194–226).  Custom entry: the
inner `try/except: pass` (lines 207–210) swallows the disconnect failure,
so the observer list ends up empty either way; line 213 deletes the dict
entry; then line 214 `logger.debug` raises inside the outer `try`
(line 204), is caught at line 216, and the handler's `logger.error`
(line 217) raises out — removal happened, `return True` (line 215) did
not.  Predefined name: line 222 `logger.warning` raises (no handler).
Unknown name: line 225 `logger.warning` raises (no handler). -/
def unregister_signal (st : BusState) (name : String) :
    BusState × Except PyExn Bool :=
  match alookup st.custom name with
  | some i =>
      let st' := { st with heap := nset st.heap i [],
                           custom := aremove st.custom name }
      match loggerCall with
      | .ok _ => (st', .ok true)
      | .error _ =>
          match loggerCall with
          | .error e => (st', .error e)
          | .ok _ => (st', .ok false)
  | none =>
      if (preId name).isSome then
        match loggerCall with
        | .error e => (st, .error e)
        | .ok _ => (st, .ok false)
      else
        match loggerCall with
        | .error e => (st, .error e)
        | .ok _ => (st, .ok false)

/-- The first loop of `SignalManager.shutdown` (lines 233–234), iterating a
snapshot of the custom keys through `unregister_signal`; an exception from
`unregister_signal` would propagate (the loop has no handler). -/
def shutdownLoop (names : List String) (s : BusState) :
    BusState × Except PyExn Unit :=
  match names with
  | [] => (s, .ok ())
  | n :: t =>
      match unregister_signal s n with
      | (s', .ok _) => shutdownLoop t s'
      | (s', .error e) => (s', .error e)

/-- `SignalManager.shutdown` (lines 228–245).  Line 230 calls
`self.logger.info`, which raises `AttributeError` before anything else: the
unregistration loop (lines 233–234) and the predefined-signal disconnect
loop (lines 237–243) never run, and the bus state is unchanged.  The dead
remainder is kept for structure. -/
def shutdown (st : BusState) : BusState × Except PyExn Unit :=
  match loggerCall with
  | .error e => (st, .error e)
  | .ok _ =>
      match shutdownLoop (st.custom.map Prod.fst) st with
      | (st1, .error e) => (st1, .error e)
      | (st1, .ok _) =>
          ({ st1 with
             heap := predefinedIds.foldl (fun h i => nset h i []) st1.heap },
           .ok ())

/-- Attribute-level state of one `SignalManager` instance object during
construction: which of the attributes `__init__` assigns exist yet. -/
structure Inst where
  hasLogger : Bool
  hasCustomDict : Bool
  initialized : Bool
  hasPredefined : Bool
deriving DecidableEq, Repr

/-- A freshly allocated instance (`__new__` done, `__init__` not run). -/
def blankInst : Inst :=
  { hasLogger := false, hasCustomDict := false,
    initialized := false, hasPredefined := false }

/-- `SignalManager.__init__` (lines 11–45) at the attribute level: the
`hasattr(self, 'initialized')` guard (lines 13–14); then `self.logger` and
`self._custom_signals` are assigned (lines 17–18); then the
`self.logger.info` call on line 19 raises `AttributeError`, so
`self.initialized = True` (line 20) and the fourteen predefined signal
attributes (lines 24–45) are never set. -/
def managerInitBody (s : Inst) : Inst × Except PyExn Unit :=
  if s.initialized then (s, .ok ())
  else
    let s1 := { s with hasLogger := true, hasCustomDict := true }
    match loggerCall with
    | .error e => (s1, .error e)
    | .ok _ => ({ s1 with initialized := true, hasPredefined := true }, .ok ())

/-- `SingletonMeta._instances` restricted to the `SignalManager` class,
together with a counter for fresh Python object identities. -/
structure World where
  cached : Option (Nat × Inst)
  nextObj : Nat
deriving DecidableEq, Repr

/-- `SingletonMeta.__call__` for `SignalManager` (`src/utils/singleton.py`
lines 9–23): a cached instance is returned without running construction;
otherwise `super().__call__(...)` runs `__init__` on a fresh instance, and
only if that returns is the result assigned into `_instances`
(singleton.py line 22) — when `__init__` raises, the exception propagates
and nothing is cached (the partially-constructed object is discarded). -/
def managerCall (w : World) : World × Except PyExn Nat :=
  match w.cached with
  | some p => (w, .ok p.1)
  | none =>
      match managerInitBody blankInst with
      | (_, .error e) => (w, .error e)
      | (inst, .ok _) =>
          ({ cached := some (w.nextObj, inst), nextObj := w.nextObj + 1 },
           .ok w.nextObj)

/-- `ExampleService` state (`src/core/services/example_service.py`): the
`data_cache` dict, insertion-ordered. -/
structure SvcState where
  data_cache : List (String × PyVal)
deriving DecidableEq, Repr

/-- `ExampleService.get_data` (lines 20–30): line 29 calls
`self.logger.debug`, which raises `AttributeError` before the `dict.get`
on line 30 ever runs — the method never returns. -/
def get_data (s : SvcState) (key : String) : Except PyExn PyVal :=
  match loggerCall with
  | .error e => .error e
  | .ok _ => .ok ((alookup s.data_cache key).getD PyVal.none)

/-- A value the controller sends to the view: a single cached value (or the
`None` no-value marker), or the whole `data_cache` mapping. -/
inductive CtrlVal where
  | val (v : PyVal)
  | mapping (m : List (String × PyVal))
deriving DecidableEq, Repr

/-- An outbound controller signal emission, as received by the view
(`data_updated.emit` / `status_changed.emit` in `MainController`). -/
inductive ViewMsg where
  | data_updated (key : String) (v : CtrlVal)
  | status_changed (msg : String)
deriving DecidableEq, Repr

/-- `MainController.handle_data_request` (main_controller.py lines 72–92).
Line 79 calls `self.logger.debug` *outside* the `try` that starts on
line 81, so it raises `AttributeError` out of the handler on every request;
the `"all"` branch and the `get_data` branch (whose own raise would be
caught at line 90 only for the handler's `logger.error` on line 91 to raise
out) are all dead code, kept for structure. -/
def handle_data_request (s : SvcState) (key : String) :
    Except PyExn (List ViewMsg) :=
  match loggerCall with
  | .error e => .error e
  | .ok _ =>
      if key = "all" then
        .ok [.data_updated "all" (.mapping s.data_cache)]
      else
        match get_data s key with
        | .ok v => .ok [.data_updated key (.val v)]
        | .error _ =>
            match loggerCall with
            | .error e => .error e
            | .ok _ => .ok [.status_changed "data request failed"]

/-! ### Concrete test fixtures -/

/-- Observer environment for the concrete runs below: observer `1` raises
on every invocation, everyone else is well-behaved. -/
def envT : Env := fun o _ => o == 1

/-- A bus with one custom signal `"ping"` (object `14`) carrying observers
`1` and `2`, connected in that order. -/
def busPing : BusState :=
  { initialized := true
    custom := [("ping", 14)]
    heap := initState.heap ++ [(14, [1, 2])]
    nextId := 15
    plainAttrs := knownPlainAttrs }

/-- `busPing` after the custom signal `"ping"` was removed (object `14`
left disconnected and unreachable). -/
def busPingGone : BusState :=
  { initialized := true
    custom := []
    heap := initState.heap ++ [(14, [])]
    nextId := 15
    plainAttrs := knownPlainAttrs }

/-- `busPing` after observer `3` was attached to `"ping"`. -/
def busPing3 : BusState :=
  { initialized := true
    custom := [("ping", 14)]
    heap := initState.heap ++ [(14, [1, 2, 3])]
    nextId := 15
    plainAttrs := knownPlainAttrs }

/-- The bus after `register_signal` accepted the predefined name
`"app_initialized"`: a second signal object (`14`) stored in the custom
dict shadows the canonical predefined object (`0`). -/
def busShadow : BusState :=
  { initialized := true
    custom := [("app_initialized", 14)]
    heap := initState.heap ++ [(14, [])]
    nextId := 15
    plainAttrs := knownPlainAttrs }

/-- A hypothetical fully-initialized instance (never actually produced by
the code; see `manager_construction_never_caches`). -/
def instT : Inst :=
  { hasLogger := true, hasCustomDict := true,
    initialized := true, hasPredefined := true }

/-- The singleton world before any construction attempt. -/
def worldEmpty : World := { cached := Option.none, nextObj := 0 }

/-- A hypothetical singleton world whose cache holds instance `5`. -/
def worldT : World := { cached := some (5, instT), nextObj := 6 }

/-! ## Helper lemmas -/

theorem alookup_isSome_iff {β : Type} (m : List (String × β)) (k : String) :
    (alookup m k).isSome ↔ k ∈ m.map Prod.fst := by
  induction m with
  | nil => simp [alookup]
  | cons p t ih =>
      by_cases h : p.1 = k
      · simp [alookup, h]
      · simp [alookup, h, ih, Ne.symm h]

theorem alookup_mem {β : Type} (m : List (String × β)) (k : String) (v : β)
    (h : alookup m k = some v) : (k, v) ∈ m := by
  induction m with
  | nil => simp [alookup] at h
  | cons p t ih =>
      obtain ⟨a, b⟩ := p
      by_cases hp : a = k
      · subst hp
        have hb : b = v := by simpa [alookup] using h
        subst hb
        exact List.mem_cons_self _ _
      · simp only [alookup, if_neg hp] at h
        exact List.mem_cons_of_mem _ (ih h)

theorem not_mem_map_fst_aremove {β : Type} (m : List (String × β)) (k : String) :
    k ∉ (aremove m k).map Prod.fst := by
  intro h
  rcases List.mem_map.mp h with ⟨p, hp, hk⟩
  rcases List.mem_filter.mp hp with ⟨_, hne⟩
  exact (of_decide_eq_true hne) hk

theorem heapGet_nset_self (h : List (Nat × List Nat)) (i : Nat) :
    heapGet (nset h i []) i = [] := by
  induction h with
  | nil => rfl
  | cons p t ih =>
      obtain ⟨a, b⟩ := p
      by_cases hp : a = i
      · simp [heapGet, nset, nlookup, hp]
      · simp only [nset, if_neg hp]
        simpa [heapGet, nlookup, hp] using ih

theorem heapGet_nset_of_isSome (h : List (Nat × List Nat)) (i : Nat)
    (v : List Nat) (hi : (nlookup h i).isSome) :
    heapGet (nset h i v) i = v := by
  induction h with
  | nil => simp [nlookup] at hi
  | cons p t ih =>
      obtain ⟨a, b⟩ := p
      by_cases hp : a = i
      · simp [heapGet, nset, nlookup, hp]
      · simp only [nlookup, if_neg hp] at hi
        simp only [nset, if_neg hp]
        simpa [heapGet, nlookup, hp] using ih hi

theorem preTable_fst : preTable.map Prod.fst = predefinedNames := by decide

/-- A name resolves in the predefined table exactly when it is one of the
fourteen predefined signal names. -/
theorem preId_isSome_iff (name : String) :
    (preId name).isSome ↔ name ∈ predefinedNames := by
  rw [preId, alookup_isSome_iff, preTable_fst]

theorem preId_lt (name : String) (i : Nat) (h : preId name = some i) :
    i < 14 := by
  have hm := alookup_mem preTable name i h
  have hall : ∀ p ∈ preTable, p.2 < 14 := by decide
  exact hall (name, i) hm

/-- `get_signal` ignores the heap: resolution only looks at the custom dict
and the instance's attributes. -/
theorem get_signal_heap (st : BusState) (X : List (Nat × List Nat))
    (name : String) :
    get_signal { st with heap := X } name = get_signal st name := rfl

theorem get_signal_custom (st : BusState) (name : String) (i : Nat)
    (h : alookup st.custom name = some i) :
    get_signal st name = Except.ok (some (AttrVal.signal i)) := by
  unfold get_signal
  rw [h]

theorem get_signal_pre (st : BusState) (name : String) (i : Nat)
    (hc : alookup st.custom name = Option.none) (hp : preId name = some i) :
    get_signal st name = Except.ok (some (AttrVal.signal i)) := by
  unfold get_signal
  rw [hc, hp]

theorem get_signal_plain (st : BusState) (name : String)
    (hc : alookup st.custom name = Option.none)
    (hp : preId name = Option.none) (ha : name ∈ st.plainAttrs) :
    get_signal st name = Except.ok (some AttrVal.plain) := by
  unfold get_signal
  rw [hc, hp, if_pos ha]

/-- The miss path of `get_signal` raises (the `logger.warning` on
line 82); the `return None` on line 83 is dead code. -/
theorem get_signal_miss (st : BusState) (name : String)
    (hc : alookup st.custom name = Option.none)
    (hp : preId name = Option.none) (ha : name ∉ st.plainAttrs) :
    get_signal st name = Except.error PyExn.attributeError := by
  unfold get_signal
  rw [hc, hp, if_neg ha]
  rfl

theorem emit_signal_err (env : Env) (st : BusState) (name : String)
    (d : PyVal) (e : PyExn) (h : get_signal st name = Except.error e) :
    emit_signal env st name d = ([], Except.error e) := by
  unfold emit_signal
  rw [h]

theorem emit_signal_ok_none (env : Env) (st : BusState) (name : String)
    (d : PyVal) (h : get_signal st name = Except.ok Option.none) :
    emit_signal env st name d = ([], Except.ok false) := by
  unfold emit_signal
  rw [h]

theorem emit_signal_plain_raises (env : Env) (st : BusState) (name : String)
    (d : PyVal) (h : get_signal st name = Except.ok (some AttrVal.plain)) :
    emit_signal env st name d = ([], Except.error PyExn.attributeError) := by
  unfold emit_signal
  rw [h]
  rfl

/-- Closed form of an emission on a resolved signal: every connected
observer is invoked, in connection order, with the selected argument — and
then the method raises `AttributeError` (its own logging), whether or not
any observer raised. -/
theorem emit_signal_resolved (env : Env) (st : BusState) (name : String)
    (i : Nat) (d : PyVal)
    (h : get_signal st name = Except.ok (some (AttrVal.signal i))) :
    emit_signal env st name d =
      ((heapGet st.heap i).map (fun o =>
          (o, if d = PyVal.none then Option.none else some d)),
       Except.error PyExn.attributeError) := by
  unfold emit_signal
  rw [h]
  by_cases ha : ((heapGet st.heap i).any fun o =>
      env o (if d = PyVal.none then Option.none else some d)) = true <;>
    simp [ha, loggerCall]

theorem connect_signal_resolved (st : BusState) (name : String)
    (i slot : Nat)
    (h : get_signal st name = Except.ok (some (AttrVal.signal i))) :
    connect_signal st name slot =
      ({ st with heap := nset st.heap i (heapGet st.heap i ++ [slot]) },
       Except.error PyExn.attributeError) := by
  unfold connect_signal
  rw [h]
  rfl

/-! ## Claims -/

/-- **C1** (amended).  `register_signal` never returns a signal object:
every call raises `AttributeError`, because both branches log through a
`LogManager` that has no leveled methods.  Its side effects before the
raise: if `name` is not yet a custom signal — including when it is a
predefined signal name, which the method does not check — a fresh custom
signal is created and stored under `name` (for a predefined name a
duplicate, shadowing entry, distinct from the canonical predefined
object); if `name` already exists as a custom signal, the registry is left
unchanged (earlier subscriptions are preserved, not duplicated). -/
theorem register_signal_raises_spec (st : BusState) (name : String) :
    (∀ i, alookup st.custom name = some i →
      register_signal st name = (st, Except.error PyExn.attributeError)) ∧
    (alookup st.custom name = Option.none →
      register_signal st name =
        ({ st with custom := st.custom ++ [(name, st.nextId)],
                   heap := st.heap ++ [(st.nextId, [])],
                   nextId := st.nextId + 1 },
         Except.error PyExn.attributeError)) ∧
    (∀ i, preId name = some i → 14 ≤ st.nextId → st.nextId ≠ i) := by
  refine ⟨?_, ?_, ?_⟩
  · intro i h
    unfold register_signal
    rw [h]
    rfl
  · intro h
    unfold register_signal
    rw [h]
    rfl
  · intro i hp hn
    have hi : i < 14 := preId_lt name i hp
    omega

/-- **C1** counterexample.  Registering the predefined name
`"app_initialized"` on a fresh bus is not rejected-with-a-warning returning
the canonical object: the call raises `AttributeError`, and before the
raise it stored a fresh signal object (`14`), distinct from the canonical
predefined object (`0`); the name now appears in the custom listing as
well as the predefined one (a duplicate entry), and the new object shadows
the canonical one in `get_signal`. -/
theorem register_signal_predefined_duplicate_cx :
    register_signal initState "app_initialized" =
      (busShadow, Except.error PyExn.attributeError) ∧
    preId "app_initialized" = some 0 ∧
    list_signals busShadow =
      { predefined_signals := predefinedNames
        custom_signals := ["app_initialized"] } ∧
    get_signal busShadow "app_initialized" =
      Except.ok (some (AttrVal.signal 14)) :=
  ⟨rfl, rfl, rfl, rfl⟩

/-- Witness for the amended C1 theorem at the concrete bus `busPing`:
`"ping"` is already registered, and re-registering raises with the state
(subscriptions of observers `1`, `2` included) unchanged. -/
theorem register_signal_raises_spec_witness :
    alookup busPing.custom "ping" = some 14 ∧
    register_signal busPing "ping" =
      (busPing, Except.error PyExn.attributeError) :=
  ⟨rfl, (register_signal_raises_spec busPing "ping").1 14 rfl⟩

/-- **C2** (amended).  `shutdown` raises `AttributeError` immediately (the
`logger.info` on line 230 precedes all cleanup) and leaves the bus state
unchanged: custom registrations and every observer connection survive, so
any emission after a shutdown attempt behaves exactly as before it — in
particular it still reaches the connected observers.  A second `shutdown`
call behaves identically (state unchanged), so the operation is trivially
idempotent on state but never a teardown. -/
theorem shutdown_raises_before_cleanup (st : BusState) :
    shutdown st = (st, Except.error PyExn.attributeError) ∧
    shutdown (shutdown st).1 = (st, Except.error PyExn.attributeError) ∧
    (∀ env name d,
      emit_signal env (shutdown st).1 name d = emit_signal env st name d) ∧
    (∀ name, alookup (shutdown st).1.custom name = alookup st.custom name) ∧
    (∀ i, heapGet (shutdown st).1.heap i = heapGet st.heap i) :=
  ⟨rfl, rfl, fun _ _ _ => rfl, fun _ => rfl, fun _ => rfl⟩

/-- **C2** counterexample.  On `busPing` (custom signal `"ping"` with
observers `1` and `2`), `shutdown` raises and cleans nothing; an emit on
the previously-valid name `"ping"` after the shutdown attempt still
invokes both observers (and itself raises from its own logging) — it does
not return failure with zero observer invocations, and nothing was
disconnected. -/
theorem shutdown_noop_raise_cx :
    shutdown busPing = (busPing, Except.error PyExn.attributeError) ∧
    emit_signal envT busPing "ping" (PyVal.int 1) =
      ([(1, some (PyVal.int 1)), (2, some (PyVal.int 1))],
       Except.error PyExn.attributeError) ∧
    shutdown (shutdown busPing).1 =
      (busPing, Except.error PyExn.attributeError) :=
  ⟨rfl, rfl, rfl⟩

/-- **C3** (code bug).  The intended containment — observers `o1` then `o2`
are each invoked with the payload, in order, even when `o1` raises, and the
emitter is answered with a failure result rather than an exception — is
only half real: the invocation order and the swallowing of the observer's
exception hold, but `emit_signal` then raises `AttributeError` out of its
own `except` handler (`logger.error`, line 105), for every environment,
instead of returning `False`. -/
theorem emit_signal_invokes_all_then_raises (env : Env) (st : BusState)
    (name : String) (i o1 o2 : Nat) (d : PyVal)
    (hs : get_signal st name = Except.ok (some (AttrVal.signal i)))
    (ho : heapGet st.heap i = [o1, o2])
    (hd : d ≠ PyVal.none) :
    emit_signal env st name d =
      ([(o1, some d), (o2, some d)], Except.error PyExn.attributeError) := by
  rw [emit_signal_resolved env st name i d hs, ho]
  simp [hd]

/-- Witness for the C3 theorem on `busPing`: observers `1` (which raises)
and `2`, connected in that order, are both invoked with payload `42`, and
the call raises instead of returning failure. -/
theorem emit_signal_invokes_all_then_raises_witness :
    get_signal busPing "ping" = Except.ok (some (AttrVal.signal 14)) ∧
    heapGet busPing.heap 14 = [1, 2] ∧
    envT 1 (some (PyVal.int 42)) = true ∧
    emit_signal envT busPing "ping" (PyVal.int 42) =
      ([(1, some (PyVal.int 42)), (2, some (PyVal.int 42))],
       Except.error PyExn.attributeError) :=
  ⟨rfl, rfl, rfl,
   emit_signal_invokes_all_then_raises envT busPing "ping" 14 1 2
     (PyVal.int 42) rfl rfl (by decide)⟩

/-- **C4** (amended).  `get_signal` returns a non-absent result exactly
when `name` is a custom signal or *any* attribute of the manager instance —
a predefined signal attribute or a non-signal attribute such as `logger`
(the state's `plainAttrs` carries the instance's attribute namespace:
fields, methods, inherited `QObject` members, dunders).  For any other name
it raises `AttributeError` (the `logger.warning` on the miss path, line 82)
instead of returning an absent marker.  `is_signal_registered name = true`
implies `get_signal` finds something, but not conversely.  `get_signal`
mutates nothing. -/
theorem get_signal_vs_registered (st : BusState) (name : String) :
    ((∃ v, get_signal st name = Except.ok (some v)) ↔
      ((alookup st.custom name).isSome ∨ name ∈ predefinedNames ∨
        name ∈ st.plainAttrs)) ∧
    (alookup st.custom name = Option.none → preId name = Option.none →
      name ∉ st.plainAttrs →
      get_signal st name = Except.error PyExn.attributeError) ∧
    (is_signal_registered st name = true →
      ∃ v, get_signal st name = Except.ok (some v)) := by
  refine ⟨?_, get_signal_miss st name, ?_⟩
  · constructor
    · rintro ⟨v, hv⟩
      cases hc : alookup st.custom name with
      | some i => simp [hc]
      | none =>
          cases hp : preId name with
          | some i =>
              refine Or.inr (Or.inl ?_)
              rw [← preId_isSome_iff, hp]
              rfl
          | none =>
              by_cases ha : name ∈ st.plainAttrs
              · exact Or.inr (Or.inr ha)
              · rw [get_signal_miss st name hc hp ha] at hv
                exact Except.noConfusion hv
    · intro h
      rcases h with h | h | h
      · obtain ⟨i, hi⟩ := Option.isSome_iff_exists.mp h
        exact ⟨AttrVal.signal i, get_signal_custom st name i hi⟩
      · cases hc : alookup st.custom name with
        | some i => exact ⟨AttrVal.signal i, get_signal_custom st name i hc⟩
        | none =>
            have hp : (preId name).isSome := (preId_isSome_iff name).mpr h
            obtain ⟨i, hi⟩ := Option.isSome_iff_exists.mp hp
            exact ⟨AttrVal.signal i, get_signal_pre st name i hc hi⟩
      · cases hc : alookup st.custom name with
        | some i => exact ⟨AttrVal.signal i, get_signal_custom st name i hc⟩
        | none =>
            cases hp : preId name with
            | some i => exact ⟨AttrVal.signal i, get_signal_pre st name i hc hp⟩
            | none => exact ⟨AttrVal.plain, get_signal_plain st name hc hp h⟩
  · intro h
    unfold is_signal_registered at h
    rcases Bool.or_eq_true_iff.mp h with h1 | h1
    · obtain ⟨i, hi⟩ := Option.isSome_iff_exists.mp h1
      exact ⟨AttrVal.signal i, get_signal_custom st name i hi⟩
    · cases hc : alookup st.custom name with
      | some i => exact ⟨AttrVal.signal i, get_signal_custom st name i hc⟩
      | none =>
          obtain ⟨i, hi⟩ := Option.isSome_iff_exists.mp h1
          exact ⟨AttrVal.signal i, get_signal_pre st name i hc hi⟩

/-- **C4** counterexample.  `"logger"` is an attribute of the manager but
not a signal: `is_signal_registered` says `false`, yet `get_signal` returns
a non-absent result (this resolution path performs no logging, so it really
returns) — refuting the claimed equivalence. -/
theorem get_signal_nonsignal_attr_cx :
    is_signal_registered initState "logger" = false ∧
    get_signal initState "logger" = Except.ok (some AttrVal.plain) :=
  ⟨rfl, rfl⟩

/-- Witness for the amended C4 theorem: on `busPing`, `"ping"` is
registered, so `get_signal` finds it. -/
theorem get_signal_vs_registered_witness :
    is_signal_registered busPing "ping" = true ∧
    ∃ v, get_signal busPing "ping" = Except.ok (some v) :=
  ⟨rfl, (get_signal_vs_registered busPing "ping").2.2 rfl⟩

/-- **C5** (code bug): the code evaluated at concrete inputs.  Because
`LogManager` defines no leveled methods, every logging public operation
raises `AttributeError` instead of returning a boolean/optional result:
`register_signal` (both branches), `get_signal` on an unknown name,
`emit_signal` / `connect_signal` / `disconnect_signal` on a resolved
signal, `unregister_signal` (all branches) and `shutdown` (before any
cleanup).  Only `list_signals` and `is_signal_registered`, which never
log, actually return. -/
theorem bus_operations_raise :
    (register_signal initState "ping").2 = Except.error PyExn.attributeError ∧
    get_signal initState "nope" = Except.error PyExn.attributeError ∧
    (emit_signal envT busPing "ping" (PyVal.int 1)).2 =
      Except.error PyExn.attributeError ∧
    (connect_signal busPing "ping" 7).2 = Except.error PyExn.attributeError ∧
    (disconnect_signal busPing "ping" (some 1)).2 =
      Except.error PyExn.attributeError ∧
    (unregister_signal busPing "ping").2 = Except.error PyExn.attributeError ∧
    (shutdown busPing).2 = Except.error PyExn.attributeError ∧
    list_signals busPing =
      { predefined_signals := predefinedNames, custom_signals := ["ping"] } ∧
    is_signal_registered busPing "ping" = true :=
  ⟨rfl, rfl, rfl, rfl, rfl, rfl, rfl, rfl, rfl⟩

/-- **C6** (code bug).  `unregister_signal` evaluated on its three source
branches: a custom signal *is* removed from the registry (observers
detached best-effort, entry deleted, gone from the custom listing), but the
method then raises `AttributeError` (lines 214/217) instead of returning
success; a predefined name (not shadowed by a custom entry, matching the
code's check order) raises at line 222 instead of returning `false`, the
name staying in the predefined listing; an unknown name raises at line 225
instead of returning `false`. -/
theorem unregister_signal_raises_spec (st : BusState) (name : String) :
    (∀ i, alookup st.custom name = some i →
      unregister_signal st name =
        ({ st with heap := nset st.heap i [],
                   custom := aremove st.custom name },
         Except.error PyExn.attributeError) ∧
      heapGet (nset st.heap i []) i = [] ∧
      name ∉ (list_signals { st with heap := nset st.heap i [],
                                     custom := aremove st.custom name
                           }).custom_signals) ∧
    (alookup st.custom name = Option.none → name ∈ predefinedNames →
      unregister_signal st name = (st, Except.error PyExn.attributeError) ∧
      name ∈ (list_signals st).predefined_signals) ∧
    (alookup st.custom name = Option.none → preId name = Option.none →
      unregister_signal st name = (st, Except.error PyExn.attributeError)) := by
  refine ⟨?_, ?_, ?_⟩
  · intro i h
    refine ⟨?_, heapGet_nset_self st.heap i, ?_⟩
    · unfold unregister_signal
      rw [h]
      rfl
    · show name ∉ (list_signals _).custom_signals
      unfold list_signals
      dsimp only
      exact not_mem_map_fst_aremove st.custom name
  · intro hc hn
    constructor
    · unfold unregister_signal
      rw [hc, if_pos ((preId_isSome_iff name).mpr hn)]
      rfl
    · exact hn
  · intro hc hp
    unfold unregister_signal
    rw [hc, hp]
    rfl

/-- Witness for the C6 theorem: on `busPing`, unregistering the custom
`"ping"` removes it (yielding `busPingGone`) but raises; unregistering the
predefined `"data_updated"` raises with the state unchanged; unregistering
the unknown `"nope"` raises with the state unchanged. -/
theorem unregister_signal_raises_spec_witness :
    alookup busPing.custom "ping" = some 14 ∧
    unregister_signal busPing "ping" =
      (busPingGone, Except.error PyExn.attributeError) ∧
    heapGet busPingGone.heap 14 = [] ∧
    "ping" ∉ (list_signals busPingGone).custom_signals ∧
    "data_updated" ∈ predefinedNames ∧
    unregister_signal busPing "data_updated" =
      (busPing, Except.error PyExn.attributeError) ∧
    unregister_signal busPing "nope" =
      (busPing, Except.error PyExn.attributeError) := by
  have h1 := (unregister_signal_raises_spec busPing "ping").1 14 rfl
  have h2 := (unregister_signal_raises_spec busPing "data_updated").2.1
    rfl (by decide)
  have h3 := (unregister_signal_raises_spec busPing "nope").2.2 rfl rfl
  exact ⟨rfl, rfl, h1.2.1, h1.2.2, by decide, h2.1, h3⟩

/-- **C7** (code bug): the construction machinery evaluated.  On an empty
singleton cache, a `SignalManager()` call runs `__init__`, which raises
`AttributeError` at the `logger.info` on line 19 — after assigning
`self.logger` and `self._custom_signals` but before `initialized` or any
predefined signal attribute is set — so the assignment into
`SingletonMeta._instances` (singleton.py line 22) never completes: nothing
is cached, and a repeated attempt behaves identically.  The cached-instance
path of `SingletonMeta.__call__` and the `hasattr(self, 'initialized')`
guard behave as written (shown on a hypothetical cached world), locating
the breakage entirely in the constructor's logging call. -/
theorem manager_construction_never_caches :
    managerCall worldEmpty = (worldEmpty, Except.error PyExn.attributeError) ∧
    managerCall (managerCall worldEmpty).1 =
      (worldEmpty, Except.error PyExn.attributeError) ∧
    managerInitBody blankInst =
      ({ hasLogger := true, hasCustomDict := true,
         initialized := false, hasPredefined := false },
       Except.error PyExn.attributeError) ∧
    (managerInitBody blankInst).1.initialized = false ∧
    (managerInitBody blankInst).1.hasPredefined = false ∧
    managerCall worldT = (worldT, Except.ok 5) ∧
    managerInitBody instT = (instT, Except.ok ()) :=
  ⟨rfl, rfl, rfl, rfl, rfl, rfl, rfl⟩

/-- **C8** (code bug): the handler evaluated on every input.  The
`self.logger.debug` on main_controller.py line 79 sits *outside* the `try`
that starts on line 81 and raises `AttributeError` out of
`handle_data_request` on every request — for the sentinel key `"all"` as
much as for any other key — so an exception always escapes the handler and
the view receives nothing; `get_data` itself raises at
example_service.py line 29 before its `dict.get` runs. -/
theorem handle_data_request_raises (s : SvcState) (key : String) :
    handle_data_request s key = Except.error PyExn.attributeError ∧
    get_data s key = Except.error PyExn.attributeError :=
  ⟨rfl, rfl⟩

/-- **C9** (amended).  `connect_signal` never returns `false`.  On a
resolved signal it attaches the observer and then raises `AttributeError` —
for every observer, whether or not it has a `__name__` attribute: the
`self.logger.debug` lookup on line 123 raises before `slot.__name__` is
ever read, and the handler's `logger.error` on line 126 raises out.  The
attachment persists and a subsequent emission does invoke the observer, so
a failed `connect_signal` call still does not imply the bus's subscription
state is unchanged. -/
theorem connect_signal_raises_yet_attached (env : Env) (st : BusState)
    (name : String) (i slot : Nat) (d : PyVal)
    (hs : get_signal st name = Except.ok (some (AttrVal.signal i)))
    (hh : (nlookup st.heap i).isSome)
    (hd : d ≠ PyVal.none) :
    connect_signal st name slot =
      ({ st with heap := nset st.heap i (heapGet st.heap i ++ [slot]) },
       Except.error PyExn.attributeError) ∧
    heapGet (nset st.heap i (heapGet st.heap i ++ [slot])) i =
      heapGet st.heap i ++ [slot] ∧
    emit_signal env
        { st with heap := nset st.heap i (heapGet st.heap i ++ [slot]) }
        name d =
      ((heapGet st.heap i ++ [slot]).map (fun o => (o, some d)),
       Except.error PyExn.attributeError) := by
  refine ⟨connect_signal_resolved st name i slot hs,
    heapGet_nset_of_isSome st.heap i _ hh, ?_⟩
  have hs' : get_signal
      { st with heap := nset st.heap i (heapGet st.heap i ++ [slot]) } name =
      Except.ok (some (AttrVal.signal i)) := by
    rw [get_signal_heap]
    exact hs
  rw [emit_signal_resolved env _ name i d hs']
  dsimp only
  rw [heapGet_nset_of_isSome st.heap i _ hh, if_neg hd]

/-- **C9** counterexample.  At the concrete input the original claim is
about — a registered signal (`"ping"`) and an observer (`3`) — the claimed
`false` return never occurs: `connect_signal` raises `AttributeError`,
although the observer was attached (the list grew to `[1, 2, 3]`) and the
next emission invokes it. -/
theorem connect_signal_raises_attached_cx :
    connect_signal busPing "ping" 3 =
      (busPing3, Except.error PyExn.attributeError) ∧
    heapGet busPing3.heap 14 = [1, 2, 3] ∧
    (emit_signal envT busPing3 "ping" (PyVal.int 5)).1 =
      [(1, some (PyVal.int 5)), (2, some (PyVal.int 5)),
       (3, some (PyVal.int 5))] :=
  ⟨rfl, rfl, rfl⟩

/-- Witness for the amended C9 theorem at `busPing`, observer `3`,
payload `5`. -/
theorem connect_signal_raises_yet_attached_witness :
    get_signal busPing "ping" = Except.ok (some (AttrVal.signal 14)) ∧
    (nlookup busPing.heap 14).isSome = true ∧
    (connect_signal busPing "ping" 3 =
      ({ busPing with
         heap := nset busPing.heap 14 (heapGet busPing.heap 14 ++ [3]) },
       Except.error PyExn.attributeError) ∧
     heapGet (nset busPing.heap 14 (heapGet busPing.heap 14 ++ [3])) 14 =
       heapGet busPing.heap 14 ++ [3] ∧
     emit_signal envT
         { busPing with
           heap := nset busPing.heap 14 (heapGet busPing.heap 14 ++ [3]) }
         "ping" (PyVal.int 5) =
       ((heapGet busPing.heap 14 ++ [3]).map (fun o => (o, some (PyVal.int 5))),
        Except.error PyExn.attributeError)) :=
  ⟨rfl, rfl,
   connect_signal_raises_yet_attached envT busPing "ping" 14 3 (PyVal.int 5)
     rfl rfl (by decide)⟩

/-- **C10**.  Supplying the payload `None` explicitly is indistinguishable
from supplying no payload at all (it is the parameter's default, and the
body branches on `data is not None`), and in either case the signal is
emitted with zero arguments: no observer is ever invoked with a payload of
`None`.  (Whether the call then returns or raises is a separate matter —
see C3/C5; the invocation trace is identical either way.) -/
theorem emit_signal_none_arg (env : Env) (st : BusState) (name : String) :
    emit_signal env st name PyVal.none = emit_signal env st name ∧
    ∀ p ∈ (emit_signal env st name PyVal.none).1, p.2 = Option.none := by
  refine ⟨rfl, ?_⟩
  intro p hp
  cases hg : get_signal st name with
  | error e =>
      rw [emit_signal_err env st name PyVal.none e hg] at hp
      simp at hp
  | ok a =>
      cases a with
      | none =>
          rw [emit_signal_ok_none env st name PyVal.none hg] at hp
          simp at hp
      | some av =>
          cases av with
          | plain =>
              rw [emit_signal_plain_raises env st name PyVal.none hg] at hp
              simp at hp
          | signal i =>
              rw [emit_signal_resolved env st name i PyVal.none hg] at hp
              simp only [List.mem_map] at hp
              obtain ⟨o, _, ho⟩ := hp
              rw [← ho]
              simp

/-- Witness for C10 on `busPing`: the explicit-`None` emission coincides
with the payloadless one, and its trace invokes both observers with zero
arguments; observer `1`'s trace entry is derived from the theorem. -/
theorem emit_signal_none_arg_witness :
    emit_signal envT busPing "ping" PyVal.none =
      emit_signal envT busPing "ping" ∧
    emit_signal envT busPing "ping" PyVal.none =
      ([(1, Option.none), (2, Option.none)],
       Except.error PyExn.attributeError) ∧
    ((1 : Nat), (Option.none : Option PyVal)).2 = Option.none :=
  ⟨(emit_signal_none_arg envT busPing "ping").1, rfl,
   (emit_signal_none_arg envT busPing "ping").2 (1, Option.none) (by decide)⟩

end PySide6Framework
